import Mathlib

/-!
Shallow embedding of the CutyCapt capture orchestration
(src/cutycapt.cpp, src/cutycapt.hpp).

Modelling conventions:
* Qt's event loop is single-threaded; a run is a list of events folded over a
  step function.  `QApplication::quit()` / `QApplication::exit(c)` stop the
  event loop, recorded as `exited = some c`; once `exited` is set no further
  event is dispatched.
* Asynchronous engine callbacks (the `runJavaScript` geometry probe result,
  `pdfPrintingFinished`, the `toPlainText`/`toHtml` completion, and the
  one-shot `QTimer::singleShot` callbacks) can only fire while a matching
  request is outstanding; outstanding requests are tracked by the
  `pendingProbe`, `pendingPdf`, `pendingText` and `pendingDelayed` fields and
  the corresponding event is a no-op when none is outstanding.
* Machine integers (`int`, `QSize` components, millisecond delays) are `Int`;
  none of the modelled code paths can overflow 32-bit values.
* Logging (`std::cerr`/`std::clog`/`qDebug`) is ignored; it does not affect
  control flow.
-/

namespace CutyCapt

/-- `CutyCapt::OutputFormat` (cutycapt.hpp, lines 112-128). -/
inductive OutputFormat
  | SvgFormat
  | PdfFormat
  | PsFormat
  | InnerTextFormat
  | HtmlFormat
  | PngFormat
  | JpegFormat
  | MngFormat
  | TiffFormat
  | GifFormat
  | BmpFormat
  | PpmFormat
  | XbmFormat
  | XpmFormat
  | OtherFormat
deriving DecidableEq

/-- `QSize` with integer components. -/
structure Size where
  width : Int
  height : Int
deriving DecidableEq

/-- `QSize::isEmpty()`: the width or the height is at most 0. -/
def Size.isEmpty (s : Size) : Bool :=
  decide (s.width ≤ 0) || decide (s.height ≤ 0)

/-- `QString::endsWith` as a character-sequence suffix test. -/
def qstringEndsWith (s post : String) : Bool :=
  List.isSuffixOf post.data s.data

/-- The static `CutyExtMap` table (cutycapt.cpp, lines 34-47):
format id, file extension, identifier, terminated by the `OtherFormat`
sentinel whose extension and identifier are empty. -/
def CutyExtMap : List (OutputFormat × String × String) :=
  [(OutputFormat.SvgFormat, ".svg", "svg"),
   (OutputFormat.PdfFormat, ".pdf", "pdf"),
   (OutputFormat.PsFormat, ".ps", "ps"),
   (OutputFormat.InnerTextFormat, ".txt", "itext"),
   (OutputFormat.HtmlFormat, ".html", "html"),
   (OutputFormat.JpegFormat, ".jpeg", "jpeg"),
   (OutputFormat.PngFormat, ".png", "png"),
   (OutputFormat.MngFormat, ".mng", "mng"),
   (OutputFormat.TiffFormat, ".tiff", "tiff"),
   (OutputFormat.GifFormat, ".gif", "gif"),
   (OutputFormat.BmpFormat, ".bmp", "bmp"),
   (OutputFormat.PpmFormat, ".ppm", "ppm"),
   (OutputFormat.XbmFormat, ".xbm", "xbm"),
   (OutputFormat.XpmFormat, ".xpm", "xpm"),
   (OutputFormat.OtherFormat, "", "")]

/-- The `--out` extension-inference loop in `main` (cutycapt.cpp, lines
575-578): walk the table until the `OtherFormat` sentinel, every entry whose
extension is a suffix of the output path overwrites the running format. -/
def extFormatLoop : List (OutputFormat × String × String) → String → OutputFormat → OutputFormat
  | [], _, fmt => fmt
  | e :: rest, out, fmt =>
    if e.1 = OutputFormat.OtherFormat then fmt
    else extFormatLoop rest out (if qstringEndsWith out e.2.1 then e.1 else fmt)

/-- The `--out-format` identifier loop in `main` (cutycapt.cpp, lines
605-608): walk the table until the sentinel, every entry whose identifier
equals the argument overwrites the running format. -/
def identFormatLoop : List (OutputFormat × String × String) → String → OutputFormat → OutputFormat
  | [], _, fmt => fmt
  | e :: rest, v, fmt =>
    if e.1 = OutputFormat.OtherFormat then fmt
    else identFormatLoop rest v (if v = e.2.2 then e.1 else fmt)

/-- The identifier lookup at the top of `CutyCapt::saveSnapshot`
(cutycapt.cpp, lines 372-377): first matching entry before the sentinel;
`none` models the `nullptr` that remains when no entry matches. -/
def identifierFor : List (OutputFormat × String × String) → OutputFormat → Option String
  | [], _ => none
  | e :: rest, fmt =>
    if e.1 = OutputFormat.OtherFormat then none
    else if e.1 = fmt then some e.2.2
    else identifierFor rest fmt

/-- Identifier passed to `QImage::save`/`QPixmap::save` for a format. -/
def formatIdentifier (fmt : OutputFormat) : Option String :=
  identifierFor CutyExtMap fmt

/-- The command-line options of `main` that participate in output-format
resolution (`--url`, `--out`, `--out-format`); the remaining options do not
interact with the format. -/
inductive Arg
  | url (s : String)
  | out (s : String)
  | outFormat (s : String)
deriving DecidableEq

/-- The argument-accumulator variables of `main`. -/
structure ParseState where
  argUrl : Option String
  argOut : String
  format : OutputFormat
  argHelp : Bool
deriving DecidableEq

/-- Initial accumulator values of `main` (cutycapt.cpp, lines 505-522). -/
def initParse : ParseState :=
  { argUrl := none, argOut := "", format := OutputFormat.OtherFormat, argHelp := false }

/-- The argument loop of `main` restricted to the format-relevant options
(cutycapt.cpp, lines 562-579 and 604-612).  `--out` infers the format from
the path suffix only while the format is still unresolved; an `--out-format`
whose identifier matches no table entry and leaves the format unresolved
sets `argHelp` and breaks out of the loop. -/
def parseArgs : ParseState → List Arg → ParseState
  | st, [] => st
  | st, Arg.url u :: rest => parseArgs { st with argUrl := some u } rest
  | st, Arg.out o :: rest =>
    let fmt := if st.format = OutputFormat.OtherFormat
               then extFormatLoop CutyExtMap o st.format else st.format
    parseArgs { st with argOut := o, format := fmt } rest
  | st, Arg.outFormat v :: rest =>
    let fmt := identFormatLoop CutyExtMap v st.format
    if fmt = OutputFormat.OtherFormat then { st with format := fmt, argHelp := true }
    else parseArgs { st with format := fmt } rest

/-- The config-error check after the argument loop (cutycapt.cpp, line 633):
`!argUrl || argOut.isEmpty() || argHelp` prints the help text and returns
`EXIT_FAILURE`. -/
def configError (args : List Arg) : Bool :=
  let st := parseArgs initParse args
  st.argUrl.isNone || decide (st.argOut = "") || st.argHelp

/-- The immutable per-run configuration consumed by the orchestration
(constructor arguments of `CutyCapt` plus the page's alert string, the
minimum size and the max-wait installed by `main`). -/
structure Config where
  silent : Bool
  alertString : String
  delay : Int
  format : OutputFormat
  minWidth : Int
  minHeight : Int
  maxWait : Nat
deriving DecidableEq

/-- The mutable run state: the `CutyCapt` member fields together with the
event-loop bookkeeping described in the module header. -/
structure RunState where
  sawDocumentComplete : Bool
  sawGeometryChange : Bool
  viewSize : Size
  pageSize : Size
  timeoutArmed : Bool
  pendingProbe : Nat
  pendingDelayed : List Int
  pendingPdf : Nat
  pendingText : Nat
  textWrites : Nat
  snapshots : List (OutputFormat × Size)
  exited : Option Int
deriving DecidableEq

/-- State after `main` has constructed the objects, armed the max-wait timer
(cutycapt.cpp, lines 676-682) and resized the view to the configured minimum
(lines 687-691); `mViewSize` is a default-constructed `QSize`, i.e. (-1,-1). -/
def initState (cfg : Config) : RunState where
  sawDocumentComplete := false
  sawGeometryChange := false
  viewSize := ⟨-1, -1⟩
  pageSize := ⟨cfg.minWidth, cfg.minHeight⟩
  timeoutArmed := decide (0 < cfg.maxWait)
  pendingProbe := 0
  pendingDelayed := []
  pendingPdf := 0
  pendingText := 0
  textWrites := 0
  snapshots := []
  exited := none

/-- The size-fallback chain at the top of `CutyCapt::saveSnapshot`
(cutycapt.cpp, lines 382-386): keep `mViewSize` if non-empty, else the
widget's current size, else the fixed `QSize(800, 600)`. -/
def snapshotViewSize (viewSize pageSize : Size) : Size :=
  let v := if viewSize.isEmpty then pageSize else viewSize
  if v.isEmpty then ⟨800, 600⟩ else v

/-- `CutyCapt::saveSnapshot` (cutycapt.cpp, lines 368-454): stop the timeout
timer, resolve the size, record the write, then dispatch on the format.
The SVG branch and the raster default branch call `QApplication::quit()`
synchronously; the PDF/PS branch starts an asynchronous `printToPdf`; the
plain-text/HTML branches start an asynchronous extraction. -/
def saveSnapshot (cfg : Config) (s : RunState) : RunState :=
  let vs := snapshotViewSize s.viewSize s.pageSize
  let s1 : RunState :=
    { s with timeoutArmed := false, viewSize := vs,
             snapshots := s.snapshots ++ [(cfg.format, vs)] }
  match cfg.format with
  | OutputFormat.SvgFormat => { s1 with exited := some 0 }
  | OutputFormat.PdfFormat => { s1 with pendingPdf := s1.pendingPdf + 1 }
  | OutputFormat.PsFormat => { s1 with pendingPdf := s1.pendingPdf + 1 }
  | OutputFormat.InnerTextFormat => { s1 with pendingText := s1.pendingText + 1 }
  | OutputFormat.HtmlFormat => { s1 with pendingText := s1.pendingText + 1 }
  | _ => { s1 with exited := some 0 }

/-- `CutyCapt::TryDelayedRender` (cutycapt.cpp, lines 324-334): bail out when
an expected alert is configured; with a positive delay arm a one-shot timer
for that delay, otherwise capture immediately. -/
def TryDelayedRender (cfg : Config) (s : RunState) : RunState :=
  if cfg.alertString = "" then
    if 0 < cfg.delay then { s with pendingDelayed := s.pendingDelayed ++ [cfg.delay] }
    else saveSnapshot cfg s
  else s

/-- `CutyCapt::Delayed` (cutycapt.cpp, lines 343-345). -/
def Delayed (cfg : Config) (s : RunState) : RunState :=
  saveSnapshot cfg s

/-- `CutyCapt::Timeout` (cutycapt.cpp, lines 336-341): log unless silent,
then capture. -/
def Timeout (cfg : Config) (s : RunState) : RunState :=
  saveSnapshot cfg s

/-- `CutyCapt::updateViewportToContentThenMaybeCapture` (cutycapt.cpp, lines
288-303): return at once when an expected alert is configured, otherwise
issue the asynchronous DOM-size query. -/
def updateViewportToContentThenMaybeCapture (cfg : Config) (s : RunState) : RunState :=
  if cfg.alertString = "" then { s with pendingProbe := s.pendingProbe + 1 }
  else s

/-- The state update performed by the `runJavaScript` result callback inside
`updateViewportToContentThenMaybeCapture` (cutycapt.cpp, lines 303-317):
positive dimensions are adopted and the widget is resized to them, otherwise
`mViewSize` falls back to the widget's current size. -/
def geometryUpdatedState (s : RunState) (w h : Int) : RunState :=
  if 0 < w ∧ 0 < h then
    { s with viewSize := ⟨w, h⟩, pageSize := ⟨w, h⟩, sawGeometryChange := true }
  else
    { s with viewSize := s.pageSize, sawGeometryChange := !(Size.isEmpty s.pageSize) }

/-- The whole `runJavaScript` result callback (cutycapt.cpp, lines 303-321):
after the size update, when both load and geometry have been seen,
`TryDelayedRender` runs. -/
def geometryCallback (cfg : Config) (s : RunState) (w h : Int) : RunState :=
  if (geometryUpdatedState s w h).sawDocumentComplete
      && (geometryUpdatedState s w h).sawGeometryChange
  then TryDelayedRender cfg (geometryUpdatedState s w h)
  else geometryUpdatedState s w h

/-- `CutyCapt::DocumentComplete` (cutycapt.cpp, lines 273-286): when the run
is not silent and the load failed, report and `QApplication::exit(1)`;
otherwise record the load and go query the DOM size. -/
def DocumentComplete (cfg : Config) (s : RunState) (ok : Bool) : RunState :=
  if ¬cfg.silent ∧ ¬ok then { s with exited := some 1 }
  else
    updateViewportToContentThenMaybeCapture cfg { s with sawDocumentComplete := true }

/-- `CutyCapt::onContentsSizeChanged` (cutycapt.cpp, lines 347-357): a
positive engine-reported content size is adopted as the view size. -/
def onContentsSizeChanged (s : RunState) (w h : Int) : RunState :=
  if 0 < w ∧ 0 < h then { s with viewSize := ⟨w, h⟩, sawGeometryChange := true } else s

/-- `CutyCapt::pdfPrintFinish` (cutycapt.cpp, lines 359-366): on failure in a
non-silent run, report and `QApplication::exit(1)`; otherwise
`QApplication::quit()`. -/
def pdfPrintFinish (cfg : Config) (s : RunState) (success : Bool) : RunState :=
  if ¬success ∧ ¬cfg.silent then { s with exited := some 1 }
  else { s with exited := some 0 }

/-- `CutyEnginePage::javaScriptAlert` (cutycapt.cpp, lines 96-105): when an
expected alert is configured and the message equals it exactly, schedule
`Delayed` through a 10 ms one-shot timer. -/
def javaScriptAlert (cfg : Config) (s : RunState) (msg : String) : RunState :=
  if cfg.alertString ≠ "" ∧ msg = cfg.alertString then
    { s with pendingDelayed := s.pendingDelayed ++ [10] }
  else s

/-- `CutyEnginePage::javaScriptConfirm` (cutycapt.cpp, lines 107-109). -/
def javaScriptConfirm (_securityOrigin _msg : String) : Bool :=
  true

/-- `CutyEnginePage::javaScriptPrompt` (cutycapt.cpp, lines 111-115): the
result string is set to a default-constructed `QString` and the dialog is
accepted. -/
def javaScriptPrompt (_securityOrigin _msg _defaultValue : String) : Bool × String :=
  (true, "")

/-- The certificate decision taken by `CutyEnginePage::handleCertificateError`
(cutycapt.cpp, lines 55-63). -/
inductive CertDecision
  | accepted
  | defaultRejection
deriving DecidableEq

/-- `CutyEnginePage::handleCertificateError` (cutycapt.cpp, lines 55-63):
without the insecure flag do nothing (default rejection); with it, accept
exactly the overridable errors. -/
def handleCertificateError (mInsecure isOverridable : Bool) : CertDecision :=
  if !mInsecure then CertDecision.defaultRejection
  else if isOverridable then CertDecision.accepted
  else CertDecision.defaultRejection

/-- The events the engine and the timers deliver to the run. -/
inductive Event
  | loadFinished (ok : Bool)
  | geometryResolved (w h : Int)
  | contentsSizeChanged (w h : Int)
  | alert (msg : String)
  | delayElapsed
  | timeout
  | pdfFinished (success : Bool)
  | textReady (opened : Bool)
deriving DecidableEq

/-- One event dispatched by the Qt event loop.  After `exited` is set the
loop no longer dispatches; callback events require an outstanding request
(see the module header). -/
def step (cfg : Config) (s : RunState) (e : Event) : RunState :=
  if s.exited.isSome then s
  else
    match e with
    | Event.loadFinished ok => DocumentComplete cfg s ok
    | Event.geometryResolved w h =>
        if 0 < s.pendingProbe then
          geometryCallback cfg { s with pendingProbe := s.pendingProbe - 1 } w h
        else s
    | Event.contentsSizeChanged w h => onContentsSizeChanged s w h
    | Event.alert msg => javaScriptAlert cfg s msg
    | Event.delayElapsed =>
        match s.pendingDelayed with
        | [] => s
        | _ :: rest => Delayed cfg { s with pendingDelayed := rest }
    | Event.timeout =>
        if s.timeoutArmed then Timeout cfg { s with timeoutArmed := false } else s
    | Event.pdfFinished success =>
        if 0 < s.pendingPdf then
          pdfPrintFinish cfg { s with pendingPdf := s.pendingPdf - 1 } success
        else s
    | Event.textReady opened =>
        if 0 < s.pendingText then
          { s with pendingText := s.pendingText - 1,
                   textWrites := s.textWrites + (if opened then 1 else 0),
                   exited := some 0 }
        else s

/-- A whole run: fold the events over the initial state. -/
def run (cfg : Config) (evs : List Event) : RunState :=
  evs.foldl (step cfg) (initState cfg)

/-- Number of `saveSnapshot` invocations recorded so far. -/
def captures (s : RunState) : Nat :=
  s.snapshots.length

/-- Formats whose `saveSnapshot` branch ends the run synchronously with
`QApplication::quit()` (the SVG branch and the raster default branch); the
PDF/PS and plain-text/HTML branches leave the loop running while their
asynchronous completion is outstanding. -/
def quitsSynchronously : OutputFormat → Bool
  | OutputFormat.PdfFormat => false
  | OutputFormat.PsFormat => false
  | OutputFormat.InnerTextFormat => false
  | OutputFormat.HtmlFormat => false
  | _ => true

/-- Events that trigger capture outside the load/geometry/delay path: the
global timeout, and an alert carrying exactly the configured string. -/
def nonGeometryTrigger (cfg : Config) : Event → Bool
  | Event.timeout => true
  | Event.alert msg => msg == cfg.alertString
  | _ => false

/-- Modelled from the spec (section 4.1 and 7): the three-tier fallback chain
the spec prescribes for the final view size — the probed size, else the
surface's current size, else the configured minimum.  Stated for comparison
with `snapshotViewSize`, which is what the code computes. -/
def specFinalViewSize (probed : Option Size) (surface minSize : Size) : Size :=
  match probed with
  | some sz => sz
  | none => if surface.isEmpty then minSize else surface

/-- Concrete configuration for the C1 counterexample: PDF output gated on the
alert "READY". -/
def c1cfg : Config :=
  { silent := false, alertString := "READY", delay := 0,
    format := OutputFormat.PdfFormat, minWidth := 800, minHeight := 600, maxWait := 90000 }

/-- Concrete synchronous-format configuration for the C1 witness. -/
def c1wcfg : Config :=
  { silent := false, alertString := "", delay := 0,
    format := OutputFormat.PngFormat, minWidth := 800, minHeight := 600, maxWait := 90000 }

/-- Concrete silent configuration for C2: silent run, PNG output. -/
def c2cfg : Config :=
  { silent := true, alertString := "", delay := 0,
    format := OutputFormat.PngFormat, minWidth := 800, minHeight := 600, maxWait := 90000 }

/-- Concrete alert-gated configuration for the C3 witness. -/
def c3wcfg : Config :=
  { silent := false, alertString := "READY", delay := 0,
    format := OutputFormat.PngFormat, minWidth := 800, minHeight := 600, maxWait := 90000 }

/-- Event trace for the C3 witness: successful load, resolved geometry, a
contents-size hint, a non-matching alert and a spurious timer event. -/
def c3wevs : List Event :=
  [Event.loadFinished true, Event.geometryResolved 100 100,
   Event.contentsSizeChanged 50 60, Event.alert ("NOPE"), Event.delayElapsed]

/-- Concrete silent PDF configuration for C4. -/
def c4cfg : Config :=
  { silent := true, alertString := "", delay := 0,
    format := OutputFormat.PdfFormat, minWidth := 800, minHeight := 600, maxWait := 90000 }

/-- Concrete non-silent PDF configuration contrasting C4. -/
def c4cfgLoud : Config :=
  { silent := false, alertString := "", delay := 0,
    format := OutputFormat.PdfFormat, minWidth := 800, minHeight := 600, maxWait := 90000 }

/-- Configuration carrying the unresolved sentinel format, as produced by
`main` for an output path with an unrecognized extension and no override. -/
def c5cfg : Config :=
  { silent := true, alertString := "", delay := 0,
    format := OutputFormat.OtherFormat, minWidth := 800, minHeight := 600, maxWait := 90000 }

/-- Configuration for C6: minimum viewport configured as 0 times 0, so the
surface size is empty when the probe also fails. -/
def c6cfg : Config :=
  { silent := true, alertString := "", delay := 0,
    format := OutputFormat.PngFormat, minWidth := 0, minHeight := 0, maxWait := 2000 }

/-- Zero-delay configuration for the C7 witness. -/
def c7acfg : Config :=
  { silent := false, alertString := "", delay := 0,
    format := OutputFormat.PngFormat, minWidth := 800, minHeight := 600, maxWait := 90000 }

/-- Positive-delay configuration for the C7 witness. -/
def c7bcfg : Config :=
  { silent := false, alertString := "", delay := 500,
    format := OutputFormat.PngFormat, minWidth := 800, minHeight := 600, maxWait := 90000 }

/-- Plain-text configuration for the C8 witness. -/
def c8cfg : Config :=
  { silent := false, alertString := "", delay := 0,
    format := OutputFormat.InnerTextFormat, minWidth := 800, minHeight := 600, maxWait := 90000 }

/-! ## Helper lemmas -/

lemma captures_saveSnapshot (cfg : Config) (s : RunState) :
    captures (saveSnapshot cfg s) = captures s + 1 := by
  cases hf : cfg.format <;> simp [saveSnapshot, hf, captures]

lemma snapshots_saveSnapshot (cfg : Config) (s : RunState) :
    (saveSnapshot cfg s).snapshots
      = s.snapshots ++ [(cfg.format, snapshotViewSize s.viewSize s.pageSize)] := by
  cases hf : cfg.format <;> simp [saveSnapshot, hf]

lemma timeoutArmed_saveSnapshot (cfg : Config) (s : RunState) :
    (saveSnapshot cfg s).timeoutArmed = false := by
  cases hf : cfg.format <;> simp [saveSnapshot, hf]

lemma exited_saveSnapshot_sync (cfg : Config) (s : RunState)
    (hf : quitsSynchronously cfg.format = true) :
    (saveSnapshot cfg s).exited = some 0 := by
  cases h : cfg.format <;> simp_all [saveSnapshot, quitsSynchronously]

lemma TryDelayedRender_cases (cfg : Config) (s : RunState) :
    TryDelayedRender cfg s = s
    ∨ TryDelayedRender cfg s = { s with pendingDelayed := s.pendingDelayed ++ [cfg.delay] }
    ∨ TryDelayedRender cfg s = saveSnapshot cfg s := by
  unfold TryDelayedRender
  split_ifs <;> simp

lemma geometryCallback_eq (cfg : Config) (s : RunState) (w h : Int) :
    geometryCallback cfg s w h = geometryUpdatedState s w h
    ∨ geometryCallback cfg s w h = TryDelayedRender cfg (geometryUpdatedState s w h) := by
  unfold geometryCallback
  split <;> simp

lemma geometryUpdatedState_snapshots (s : RunState) (w h : Int) :
    (geometryUpdatedState s w h).snapshots = s.snapshots := by
  unfold geometryUpdatedState; split <;> rfl

lemma geometryUpdatedState_exited (s : RunState) (w h : Int) :
    (geometryUpdatedState s w h).exited = s.exited := by
  unfold geometryUpdatedState; split <;> rfl

lemma geometryUpdatedState_timeoutArmed (s : RunState) (w h : Int) :
    (geometryUpdatedState s w h).timeoutArmed = s.timeoutArmed := by
  unfold geometryUpdatedState; split <;> rfl

lemma foldl_step_inv (cfg : Config) (P : RunState → Prop) (Q : Event → Prop)
    (hstep : ∀ s e, Q e → P s → P (step cfg s e)) :
    ∀ (evs : List Event), (∀ e ∈ evs, Q e) → ∀ s : RunState, P s → P (evs.foldl (step cfg) s) := by
  intro evs
  induction evs with
  | nil => intro _ s hs; simpa using hs
  | cons e rest ih =>
      intro hq s hs
      have he : Q e := hq e (List.mem_cons_self e rest)
      have hrest : ∀ x ∈ rest, Q x := fun x hx => hq x (List.mem_cons_of_mem e hx)
      simpa using ih hrest (step cfg s e) (hstep s e he hs)

lemma c1_step_sync (cfg : Config) (hf : quitsSynchronously cfg.format = true)
    (s : RunState) (e : Event)
    (h1 : s.exited = none → captures s = 0) (h2 : captures s ≤ 1) :
    ((step cfg s e).exited = none → captures (step cfg s e) = 0)
    ∧ captures (step cfg s e) ≤ 1 := by
  cases hE : s.exited with
  | some c => simp [step, hE, h2]
  | none =>
    have hs0 : s.snapshots.length = 0 := by simpa [captures] using h1 hE
    cases e with
    | loadFinished ok =>
        have hstep : step cfg s (Event.loadFinished ok) = DocumentComplete cfg s ok := by
          simp [step, hE]
        rw [hstep]
        unfold DocumentComplete updateViewportToContentThenMaybeCapture
        split_ifs <;> simp [captures, hs0, hE]
    | geometryResolved w h =>
        by_cases hp : 0 < s.pendingProbe
        · have hstep : step cfg s (Event.geometryResolved w h)
              = geometryCallback cfg { s with pendingProbe := s.pendingProbe - 1 } w h := by
            simp [step, hE, hp]
          rw [hstep]
          rcases geometryCallback_eq cfg { s with pendingProbe := s.pendingProbe - 1 } w h
            with hg | hg <;> rw [hg]
          · constructor
            · intro _; simp [captures, geometryUpdatedState_snapshots, hs0]
            · simp [captures, geometryUpdatedState_snapshots, hs0]
          · rcases TryDelayedRender_cases cfg
              (geometryUpdatedState { s with pendingProbe := s.pendingProbe - 1 } w h)
              with ht | ht | ht <;> rw [ht]
            · constructor
              · intro _; simp [captures, geometryUpdatedState_snapshots, hs0]
              · simp [captures, geometryUpdatedState_snapshots, hs0]
            · constructor
              · intro _; simp [captures, geometryUpdatedState_snapshots, hs0]
              · simp [captures, geometryUpdatedState_snapshots, hs0]
            · constructor
              · intro hx
                rw [exited_saveSnapshot_sync _ _ hf] at hx
                exact absurd hx (by simp)
              · rw [captures_saveSnapshot]
                simp [captures, geometryUpdatedState_snapshots, hs0]
        · have hstep : step cfg s (Event.geometryResolved w h) = s := by
            simp [step, hE, hp]
          rw [hstep]
          exact ⟨h1, h2⟩
    | contentsSizeChanged w h =>
        have hstep : step cfg s (Event.contentsSizeChanged w h) = onContentsSizeChanged s w h := by
          simp [step, hE]
        rw [hstep]
        unfold onContentsSizeChanged
        split_ifs <;> simp [captures, hs0, hE]
    | alert msg =>
        have hstep : step cfg s (Event.alert msg) = javaScriptAlert cfg s msg := by
          simp [step, hE]
        rw [hstep]
        unfold javaScriptAlert
        split_ifs <;> simp [captures, hs0, hE]
    | delayElapsed =>
        cases hL : s.pendingDelayed with
        | nil =>
            have hstep : step cfg s Event.delayElapsed = s := by simp [step, hE, hL]
            rw [hstep]; exact ⟨h1, h2⟩
        | cons a rest =>
            have hstep : step cfg s Event.delayElapsed
                = saveSnapshot cfg { s with pendingDelayed := rest } := by
              simp [step, hE, hL, Delayed]
            rw [hstep]
            constructor
            · intro hx
              rw [exited_saveSnapshot_sync _ _ hf] at hx
              exact absurd hx (by simp)
            · rw [captures_saveSnapshot]; simp [captures, hs0]
    | timeout =>
        by_cases hT : s.timeoutArmed = true
        · have hstep : step cfg s Event.timeout
              = saveSnapshot cfg { s with timeoutArmed := false } := by
            simp [step, hE, hT, Timeout]
          rw [hstep]
          constructor
          · intro hx
            rw [exited_saveSnapshot_sync _ _ hf] at hx
            exact absurd hx (by simp)
          · rw [captures_saveSnapshot]; simp [captures, hs0]
        · have hstep : step cfg s Event.timeout = s := by simp [step, hE, hT]
          rw [hstep]; exact ⟨h1, h2⟩
    | pdfFinished success =>
        by_cases hp : 0 < s.pendingPdf
        · have hstep : step cfg s (Event.pdfFinished success)
              = pdfPrintFinish cfg { s with pendingPdf := s.pendingPdf - 1 } success := by
            simp [step, hE, hp]
          rw [hstep]
          unfold pdfPrintFinish
          split_ifs <;> simp [captures, hs0]
        · have hstep : step cfg s (Event.pdfFinished success) = s := by simp [step, hE, hp]
          rw [hstep]; exact ⟨h1, h2⟩
    | textReady opened =>
        by_cases hp : 0 < s.pendingText
        · have hstep : step cfg s (Event.textReady opened)
              = { s with pendingText := s.pendingText - 1,
                         textWrites := s.textWrites + (if opened then 1 else 0),
                         exited := some 0 } := by
            simp [step, hE, hp]
          rw [hstep]; simp [captures, hs0]
        · have hstep : step cfg s (Event.textReady opened) = s := by simp [step, hE, hp]
          rw [hstep]; exact ⟨h1, h2⟩

lemma step_timeoutArmed (cfg : Config) (s : RunState) (e : Event)
    (h : (step cfg s e).timeoutArmed = true) :
    s.timeoutArmed = true ∧ captures (step cfg s e) = captures s := by
  cases hE : s.exited with
  | some c =>
      have hstep : step cfg s e = s := by simp [step, hE]
      rw [hstep] at h ⊢
      exact ⟨h, rfl⟩
  | none =>
    cases e with
    | loadFinished ok =>
        have hstep : step cfg s (Event.loadFinished ok) = DocumentComplete cfg s ok := by
          simp [step, hE]
        rw [hstep] at h ⊢
        unfold DocumentComplete updateViewportToContentThenMaybeCapture at h ⊢
        split_ifs at h ⊢ <;> simp_all [captures]
    | geometryResolved w h2 =>
        by_cases hp : 0 < s.pendingProbe
        · have hstep : step cfg s (Event.geometryResolved w h2)
              = geometryCallback cfg { s with pendingProbe := s.pendingProbe - 1 } w h2 := by
            simp [step, hE, hp]
          rw [hstep] at h ⊢
          rcases geometryCallback_eq cfg { s with pendingProbe := s.pendingProbe - 1 } w h2
            with hg | hg <;> rw [hg] at h ⊢
          · constructor
            · rw [geometryUpdatedState_timeoutArmed] at h; exact h
            · simp [captures, geometryUpdatedState_snapshots]
          · rcases TryDelayedRender_cases cfg
              (geometryUpdatedState { s with pendingProbe := s.pendingProbe - 1 } w h2)
              with ht | ht | ht <;> rw [ht] at h ⊢
            · constructor
              · rw [geometryUpdatedState_timeoutArmed] at h; exact h
              · simp [captures, geometryUpdatedState_snapshots]
            · constructor
              · simp only [geometryUpdatedState_timeoutArmed] at h; simpa using h
              · simp [captures, geometryUpdatedState_snapshots]
            · rw [timeoutArmed_saveSnapshot] at h
              exact absurd h (by simp)
        · have hstep : step cfg s (Event.geometryResolved w h2) = s := by
            simp [step, hE, hp]
          rw [hstep] at h ⊢
          exact ⟨h, rfl⟩
    | contentsSizeChanged w h2 =>
        have hstep : step cfg s (Event.contentsSizeChanged w h2)
            = onContentsSizeChanged s w h2 := by
          simp [step, hE]
        rw [hstep] at h ⊢
        unfold onContentsSizeChanged at h ⊢
        split_ifs at h ⊢ <;> simp_all [captures]
    | alert msg =>
        have hstep : step cfg s (Event.alert msg) = javaScriptAlert cfg s msg := by
          simp [step, hE]
        rw [hstep] at h ⊢
        unfold javaScriptAlert at h ⊢
        split_ifs at h ⊢ <;> simp_all [captures]
    | delayElapsed =>
        cases hL : s.pendingDelayed with
        | nil =>
            have hstep : step cfg s Event.delayElapsed = s := by simp [step, hE, hL]
            rw [hstep] at h ⊢
            exact ⟨h, rfl⟩
        | cons a rest =>
            have hstep : step cfg s Event.delayElapsed
                = saveSnapshot cfg { s with pendingDelayed := rest } := by
              simp [step, hE, hL, Delayed]
            rw [hstep] at h
            rw [timeoutArmed_saveSnapshot] at h
            exact absurd h (by simp)
    | timeout =>
        by_cases hT : s.timeoutArmed = true
        · have hstep : step cfg s Event.timeout
              = saveSnapshot cfg { s with timeoutArmed := false } := by
            simp [step, hE, hT, Timeout]
          rw [hstep] at h
          rw [timeoutArmed_saveSnapshot] at h
          exact absurd h (by simp)
        · have hstep : step cfg s Event.timeout = s := by simp [step, hE, hT]
          rw [hstep] at h ⊢
          exact ⟨h, rfl⟩
    | pdfFinished success =>
        by_cases hp : 0 < s.pendingPdf
        · have hstep : step cfg s (Event.pdfFinished success)
              = pdfPrintFinish cfg { s with pendingPdf := s.pendingPdf - 1 } success := by
            simp [step, hE, hp]
          rw [hstep] at h ⊢
          unfold pdfPrintFinish at h ⊢
          split_ifs at h ⊢ <;> simp_all [captures]
        · have hstep : step cfg s (Event.pdfFinished success) = s := by simp [step, hE, hp]
          rw [hstep] at h ⊢
          exact ⟨h, rfl⟩
    | textReady opened =>
        by_cases hp : 0 < s.pendingText
        · have hstep : step cfg s (Event.textReady opened)
              = { s with pendingText := s.pendingText - 1,
                         textWrites := s.textWrites + (if opened then 1 else 0),
                         exited := some 0 } := by
            simp [step, hE, hp]
          rw [hstep] at h ⊢
          exact ⟨h, rfl⟩
        · have hstep : step cfg s (Event.textReady opened) = s := by simp [step, hE, hp]
          rw [hstep] at h ⊢
          exact ⟨h, rfl⟩

lemma c3_step (cfg : Config) (ha : cfg.alertString ≠ "")
    (s : RunState) (e : Event) (he : nonGeometryTrigger cfg e = false)
    (h : captures s = 0 ∧ s.pendingDelayed = [] ∧ s.pendingProbe = 0
         ∧ s.pendingPdf = 0 ∧ s.pendingText = 0) :
    captures (step cfg s e) = 0 ∧ (step cfg s e).pendingDelayed = []
    ∧ (step cfg s e).pendingProbe = 0 ∧ (step cfg s e).pendingPdf = 0
    ∧ (step cfg s e).pendingText = 0 := by
  obtain ⟨h1, h2, h3, h4, h5⟩ := h
  cases hE : s.exited with
  | some c => simp [step, hE, h1, h2, h3, h4, h5]
  | none =>
    cases e with
    | loadFinished ok =>
        have hstep : step cfg s (Event.loadFinished ok) = DocumentComplete cfg s ok := by
          simp [step, hE]
        rw [hstep]
        unfold DocumentComplete updateViewportToContentThenMaybeCapture
        split_ifs <;> simp_all [captures]
    | geometryResolved x y =>
        have hstep : step cfg s (Event.geometryResolved x y) = s := by
          simp [step, hE, h3]
        rw [hstep]; exact ⟨h1, h2, h3, h4, h5⟩
    | contentsSizeChanged x y =>
        have hstep : step cfg s (Event.contentsSizeChanged x y)
            = onContentsSizeChanged s x y := by
          simp [step, hE]
        rw [hstep]
        unfold onContentsSizeChanged
        split_ifs <;> simp_all [captures]
    | alert msg =>
        have hmsg : ¬ msg = cfg.alertString := by
          simpa [nonGeometryTrigger] using he
        have hstep : step cfg s (Event.alert msg) = s := by
          simp [step, hE, javaScriptAlert, hmsg]
        rw [hstep]; exact ⟨h1, h2, h3, h4, h5⟩
    | delayElapsed =>
        have hstep : step cfg s Event.delayElapsed = s := by simp [step, hE, h2]
        rw [hstep]; exact ⟨h1, h2, h3, h4, h5⟩
    | timeout =>
        exact absurd he (by simp [nonGeometryTrigger])
    | pdfFinished success =>
        have hstep : step cfg s (Event.pdfFinished success) = s := by simp [step, hE, h4]
        rw [hstep]; exact ⟨h1, h2, h3, h4, h5⟩
    | textReady opened =>
        have hstep : step cfg s (Event.textReady opened) = s := by simp [step, hE, h5]
        rw [hstep]; exact ⟨h1, h2, h3, h4, h5⟩

/-! ## Claim theorems -/

/-- Claim C1, counterexample.  The claim states that for every run and every
interleaving, `saveSnapshot` is invoked at most once.  The code has no
`captured` latch: with the asynchronous PDF format and a configured expected
alert, two matching alerts each schedule the 10 ms `Delayed` one-shot, and
since the PDF branch of `saveSnapshot` does not stop the event loop, both
timer callbacks invoke the writer — two snapshots in one run. -/
theorem c1_counterexample :
    captures (run c1cfg [Event.alert ("READY"), Event.alert ("READY"),
      Event.delayElapsed, Event.delayElapsed]) = 2 := by
  decide

/-- Claim C1, amended.  At-most-once capture does hold for every run whose
format's write path ends the run synchronously (the vector and raster
branches, which call `QApplication::quit()` inside `saveSnapshot`): once the
writer has run, event dispatch has stopped.  Moreover, in every run, once the
writer has been invoked at least once the global timeout timer is stopped, so
a pending timeout never re-invokes the writer.  For the asynchronous
document/plain-text/markup formats there is no `captured` latch and later
events can invoke the writer again (see the counterexample). -/
theorem c1_amended_at_most_once (cfg : Config) (evs : List Event) :
    (quitsSynchronously cfg.format = true → captures (run cfg evs) ≤ 1)
    ∧ (1 ≤ captures (run cfg evs) → (run cfg evs).timeoutArmed = false) := by
  constructor
  · intro hf
    have h := foldl_step_inv cfg
      (fun st => (st.exited = none → captures st = 0) ∧ captures st ≤ 1)
      (fun _ => True)
      (fun st e _ hs => c1_step_sync cfg hf st e hs.1 hs.2)
      evs (fun _ _ => trivial) (initState cfg)
      ⟨fun _ => rfl, by simp [captures, initState]⟩
    exact h.2
  · have h := foldl_step_inv cfg
      (fun st => 1 ≤ captures st → st.timeoutArmed = false)
      (fun _ => True)
      (fun st e _ hP hcap => by
        by_cases harm : (step cfg st e).timeoutArmed = true
        · obtain ⟨ha1, ha2⟩ := step_timeoutArmed cfg st e harm
          rw [ha2] at hcap
          have := hP hcap
          rw [ha1] at this
          exact absurd this (by simp)
        · simpa using harm)
      evs (fun _ _ => trivial) (initState cfg)
      (by intro hcap; simp [captures, initState] at hcap)
    exact h

/-- Witness for the amended C1 theorem at a concrete raster run that captures
exactly once. -/
theorem c1_amended_witness :
    captures (run c1wcfg [Event.loadFinished true, Event.geometryResolved 100 100]) ≤ 1
    ∧ (run c1wcfg [Event.loadFinished true, Event.geometryResolved 100 100]).timeoutArmed
        = false :=
  ⟨(c1_amended_at_most_once c1wcfg
      [Event.loadFinished true, Event.geometryResolved 100 100]).1 (by decide),
   (c1_amended_at_most_once c1wcfg
      [Event.loadFinished true, Event.geometryResolved 100 100]).2 (by decide)⟩

/-- Claim C2, code bug, evaluated at the failing input.  `DocumentComplete`
guards the fatal exit with `!mSilent && !ok` (cutycapt.cpp, line 274), so in
a silent run a failed load is NOT fatal: the handler records the load as
complete, issues the geometry probe, and the subsequent geometry callback
captures and ends the process with status 0 — contradicting the claimed
unconditional non-zero termination with no capture. -/
theorem c2_silent_load_failure_not_fatal :
    (run c2cfg [Event.loadFinished false]).exited = none
    ∧ (run c2cfg [Event.loadFinished false]).sawDocumentComplete = true
    ∧ (run c2cfg [Event.loadFinished false]).pendingProbe = 1
    ∧ captures (run c2cfg [Event.loadFinished false, Event.geometryResolved 100 100]) = 1
    ∧ (run c2cfg [Event.loadFinished false, Event.geometryResolved 100 100]).exited = some 0 := by
  decide

/-- Claim C3, confirmed.  With a configured expected-alert string, the
load/geometry/delay path never captures: for every trace free of the two
out-of-band triggers (a global timeout and an alert carrying exactly the
configured string), no snapshot is written and no capture timer is ever
armed, no matter how many load, geometry and contents-size events arrive.
A matching alert — exact, case-sensitive string equality — schedules the
capture through the fixed 10 ms grace one-shot. -/
theorem c3_alert_gating (cfg : Config) (evs : List Event) (s : RunState)
    (ha : cfg.alertString ≠ "")
    (hev : ∀ e ∈ evs, nonGeometryTrigger cfg e = false)
    (hs : s.exited = none) :
    captures (run cfg evs) = 0
    ∧ (run cfg evs).pendingDelayed = []
    ∧ (step cfg s (Event.alert cfg.alertString)).pendingDelayed
        = s.pendingDelayed ++ [10] := by
  have h := foldl_step_inv cfg
    (fun st => captures st = 0 ∧ st.pendingDelayed = [] ∧ st.pendingProbe = 0
               ∧ st.pendingPdf = 0 ∧ st.pendingText = 0)
    (fun e => nonGeometryTrigger cfg e = false)
    (fun st e he hP => c3_step cfg ha st e he hP)
    evs hev (initState cfg) (by simp [captures, initState])
  refine ⟨h.1, h.2.1, ?_⟩
  simp [step, hs, javaScriptAlert, ha]

/-- Witness for C3: alert "READY" configured; load, geometry, a contents-size
hint and a non-matching alert produce no capture, and a matching alert arms
the 10 ms grace timer. -/
theorem c3_alert_gating_witness :
    captures (run c3wcfg c3wevs) = 0
    ∧ (run c3wcfg c3wevs).pendingDelayed = []
    ∧ (step c3wcfg (initState c3wcfg) (Event.alert c3wcfg.alertString)).pendingDelayed
        = (initState c3wcfg).pendingDelayed ++ [10] :=
  c3_alert_gating c3wcfg c3wevs (initState c3wcfg) (by decide) (by decide) (by decide)

/-- Claim C4, code bug, evaluated at the failing input.  `pdfPrintFinish`
guards the fatal exit with `!success && !mSilent` (cutycapt.cpp, line 360),
so in a silent run a failed PDF print falls through to `QApplication::quit()`
and the process exits with status 0; only a non-silent run exits 1, and a
successful print exits 0 as claimed. -/
theorem c4_silent_print_failure_exits_zero :
    (run c4cfg [Event.loadFinished true, Event.geometryResolved 100 100,
      Event.pdfFinished false]).exited = some 0
    ∧ (run c4cfgLoud [Event.loadFinished true, Event.geometryResolved 100 100,
      Event.pdfFinished false]).exited = some 1
    ∧ (run c4cfg [Event.loadFinished true, Event.geometryResolved 100 100,
      Event.pdfFinished true]).exited = some 0 := by
  decide

/-- Claim C5, counterexample.  `main` rejects only an unrecognized explicit
`--out-format` identifier; an output path whose extension matches no table
entry and has no override passes the config check with the `OtherFormat`
sentinel, navigation proceeds, and the sentinel IS passed to the snapshot
writer, which runs its raster default branch with a null (none) format
identifier. -/
theorem c5_counterexample :
    configError [Arg.url ("http://example.org/"), Arg.out ("shot.webp")] = false
    ∧ (parseArgs initParse [Arg.url ("http://example.org/"), Arg.out ("shot.webp")]).format
        = OutputFormat.OtherFormat
    ∧ (run c5cfg [Event.loadFinished true, Event.geometryResolved 100 100]).snapshots
        = [(OutputFormat.OtherFormat, ⟨100, 100⟩)]
    ∧ formatIdentifier OutputFormat.OtherFormat = none := by
  decide

/-- Claim C5, amended.  An explicit `--out-format` override whose identifier
matches no table entry (with no format already inferred) fails with a config
error before any navigation; but an output path with an unrecognized
extension and no override does NOT fail: the run proceeds with the
`OtherFormat` sentinel, and when a trigger fires the sentinel is passed to
`saveSnapshot`, which handles it in the raster default branch and quits
normally. -/
theorem c5_amended (u o v : String) (hone : o ≠ "")
    (ho : extFormatLoop CutyExtMap o OutputFormat.OtherFormat = OutputFormat.OtherFormat)
    (hv : identFormatLoop CutyExtMap v OutputFormat.OtherFormat = OutputFormat.OtherFormat) :
    configError [Arg.url u, Arg.out o, Arg.outFormat v] = true
    ∧ configError [Arg.url u, Arg.out o] = false
    ∧ ∀ (cfg : Config) (s : RunState), cfg.format = OutputFormat.OtherFormat →
        (saveSnapshot cfg s).snapshots
          = s.snapshots ++ [(OutputFormat.OtherFormat, snapshotViewSize s.viewSize s.pageSize)]
        ∧ (saveSnapshot cfg s).exited = some 0 := by
  refine ⟨?_, ?_, ?_⟩
  · simp [configError, parseArgs, initParse, ho, hv]
  · simp [configError, parseArgs, initParse, ho, hone]
  · intro cfg s hfmt
    constructor <;> simp [saveSnapshot, hfmt]

/-- Witness for the amended C5 theorem at concrete arguments. -/
theorem c5_amended_witness :
    configError [Arg.url ("http://e/"), Arg.out ("page.out"), Arg.outFormat ("bogus")] = true
    ∧ configError [Arg.url ("http://e/"), Arg.out ("page.out")] = false
    ∧ (saveSnapshot c5cfg (initState c5cfg)).exited = some 0 := by
  have h := c5_amended ("http://e/") ("page.out") ("bogus")
    (by decide) (by decide) (by decide)
  exact ⟨h.1, h.2.1, (h.2.2 c5cfg (initState c5cfg) rfl).2⟩

/-- Claim C6, counterexample.  With the configured minimum set to 0 times 0,
the probe returning no usable size and the surface size empty, the capture
(forced here by the timeout) uses the fixed built-in `QSize(800, 600)` of
`saveSnapshot` — not the configured minimum, which is what the spec's
three-tier chain (`specFinalViewSize`) would give. -/
theorem c6_counterexample :
    (run c6cfg [Event.loadFinished true, Event.geometryResolved 0 0, Event.timeout]).snapshots
      = [(OutputFormat.PngFormat, ⟨800, 600⟩)]
    ∧ (⟨800, 600⟩ : Size) ≠ (⟨c6cfg.minWidth, c6cfg.minHeight⟩ : Size)
    ∧ specFinalViewSize none ⟨0, 0⟩ ⟨c6cfg.minWidth, c6cfg.minHeight⟩
        = (⟨c6cfg.minWidth, c6cfg.minHeight⟩ : Size) := by
  decide

/-- Claim C6, amended.  When the probed view size is unusable and the
surface size is empty, the final view size used for capture is the fixed
built-in default 800 times 600; it agrees with the spec's third tier (the
configured minimum) exactly when the configured minimum is 800 times 600,
the default configuration. -/
theorem c6_amended_fixed_default (viewSize surface minSize : Size)
    (hv : viewSize.isEmpty = true) (hs : surface.isEmpty = true) :
    snapshotViewSize viewSize surface = ⟨800, 600⟩
    ∧ (snapshotViewSize viewSize surface = specFinalViewSize none surface minSize
        ↔ minSize = ⟨800, 600⟩) := by
  have h1 : snapshotViewSize viewSize surface = ⟨800, 600⟩ := by
    simp [snapshotViewSize, hv, hs]
  refine ⟨h1, ?_⟩
  rw [h1]
  simp [specFinalViewSize, hs, eq_comm]

/-- Witness for the amended C6 theorem at empty sizes and the default
minimum. -/
theorem c6_amended_witness :
    snapshotViewSize ⟨0, 0⟩ ⟨0, 0⟩ = (⟨800, 600⟩ : Size)
    ∧ (snapshotViewSize ⟨0, 0⟩ ⟨0, 0⟩ = specFinalViewSize none ⟨0, 0⟩ ⟨800, 600⟩
        ↔ (⟨800, 600⟩ : Size) = ⟨800, 600⟩) :=
  c6_amended_fixed_default ⟨0, 0⟩ ⟨0, 0⟩ ⟨800, 600⟩ (by decide) (by decide)

/-- Claim C7, confirmed.  Without alert-gating, once both `loadComplete` and
`geometryKnown` hold (the processed geometry callback finds
`mSawDocumentComplete` set and positive dimensions): with delay zero the
capture is invoked immediately by that very event; with a positive delay the
event invokes no capture but arms a one-shot timer for exactly the
configured delay, and the capture is invoked when that timer fires. -/
theorem c7_delay_protocol (cfg : Config) (s : RunState) (w h : Int)
    (ha : cfg.alertString = "") (hd : s.sawDocumentComplete = true)
    (hp : 0 < s.pendingProbe) (he : s.exited = none) (hw : 0 < w) (hh : 0 < h) :
    (cfg.delay = 0 → captures (step cfg s (Event.geometryResolved w h)) = captures s + 1)
    ∧ (0 < cfg.delay →
        captures (step cfg s (Event.geometryResolved w h)) = captures s
        ∧ (step cfg s (Event.geometryResolved w h)).pendingDelayed
            = s.pendingDelayed ++ [cfg.delay]
        ∧ captures (step cfg (step cfg s (Event.geometryResolved w h)) Event.delayElapsed)
            = captures s + 1) := by
  have hstep : step cfg s (Event.geometryResolved w h)
      = TryDelayedRender cfg
          { s with pendingProbe := s.pendingProbe - 1,
                   viewSize := ⟨w, h⟩, pageSize := ⟨w, h⟩, sawGeometryChange := true } := by
    simp [step, he, hp, geometryCallback, geometryUpdatedState, hw, hh, hd]
  constructor
  · intro h0
    rw [hstep]
    rw [TryDelayedRender]
    simp only [ha, if_true, h0]
    rw [if_neg (by simp [h0])]
    rw [captures_saveSnapshot]
    simp [captures]
  · intro hdp
    rw [hstep]
    rw [TryDelayedRender]
    simp only [ha, if_true]
    rw [if_pos hdp]
    refine ⟨by simp [captures], by simp, ?_⟩
    rw [step]
    simp only [Option.isSome_none]
    cases hL : s.pendingDelayed with
    | nil => simp [hL, he, Delayed, snapshots_saveSnapshot, captures]
    | cons a rest => simp [hL, he, Delayed, snapshots_saveSnapshot, captures]

/-- Witness for C7 at a zero-delay and a 500 ms-delay configuration. -/
theorem c7_delay_protocol_witness :
    captures (step c7acfg (run c7acfg [Event.loadFinished true])
        (Event.geometryResolved 100 200))
      = captures (run c7acfg [Event.loadFinished true]) + 1
    ∧ (step c7bcfg (run c7bcfg [Event.loadFinished true])
        (Event.geometryResolved 100 200)).pendingDelayed
      = (run c7bcfg [Event.loadFinished true]).pendingDelayed ++ [c7bcfg.delay] :=
  ⟨(c7_delay_protocol c7acfg (run c7acfg [Event.loadFinished true]) 100 200
      rfl (by decide) (by decide) (by decide) (by decide) (by decide)).1 rfl,
   ((c7_delay_protocol c7bcfg (run c7bcfg [Event.loadFinished true]) 100 200
      rfl (by decide) (by decide) (by decide) (by decide) (by decide)).2 (by decide)).2.1⟩

/-- Claim C8, confirmed.  The plain-text/markup extraction completion handler
calls `QApplication::quit()` whether or not the target file could be opened
for writing (cutycapt.cpp, lines 405-428): whenever an extraction is
outstanding, its completion ends the run with status 0 for either outcome of
the open, and does not invoke the writer again. -/
theorem c8_text_write_failure_exits_zero (cfg : Config) (s : RunState) (opened : Bool)
    (hp : 0 < s.pendingText) (he : s.exited = none) :
    (step cfg s (Event.textReady opened)).exited = some 0
    ∧ captures (step cfg s (Event.textReady opened)) = captures s := by
  constructor <;> simp [step, he, hp, captures]

/-- Witness for C8: a plain-text run whose output file cannot be opened
still exits with status 0. -/
theorem c8_text_write_failure_witness :
    (step c8cfg (run c8cfg [Event.loadFinished true, Event.geometryResolved 100 100])
        (Event.textReady false)).exited = some 0
    ∧ captures (step c8cfg (run c8cfg [Event.loadFinished true, Event.geometryResolved 100 100])
        (Event.textReady false))
      = captures (run c8cfg [Event.loadFinished true, Event.geometryResolved 100 100]) :=
  c8_text_write_failure_exits_zero c8cfg
    (run c8cfg [Event.loadFinished true, Event.geometryResolved 100 100]) false
    (by decide) (by decide)

/-- Claim C9, confirmed.  Every confirmation dialog is answered true and
every prompt dialog is answered true with the empty result string, for all
messages and default values — script execution never blocks on operator
input. -/
theorem c9_dialogs_answered_fixed :
    ∀ (origin msg defaultValue : String),
      javaScriptConfirm origin msg = true
      ∧ javaScriptPrompt origin msg defaultValue = (true, "") :=
  fun _ _ _ => ⟨rfl, rfl⟩

/-- Claim C10, confirmed.  A TLS certificate error is accepted exactly when
the insecure flag is set and the error is overridable; in every other case
the handler leaves the default rejection in place. -/
theorem c10_certificate_policy :
    ∀ (insecure overridable : Bool),
      handleCertificateError insecure overridable = CertDecision.accepted
        ↔ (insecure = true ∧ overridable = true) := by
  decide

end CutyCapt
